import Mathlib

/-!
Shallow embedding of the `AbstractedAccount` contracts of the
account-abstraction repository.

Two contract variants exist in the source:

* `V1` — the ARC-58 variant (`src/unnamed/part_000`): grants are the
  `plugins` box map keyed by `(application, allowedCaller)` with an expiry
  timestamp as value; aliases are the `namedPlugins` box map; the managed
  account is `controlledAddress`.
* `V2` — the older variant (`src/contracts/abstracted_account.algo.ts`):
  `plugins` and `factories` are sets of application ids, the managed account
  is `address`, and the expected custodian is cached in `authAddr`.

Addresses and application ids are modelled as `Nat`.  A transaction group is
a `List Txn`; each operation of a contract method is a function of the
ambient environment (`Env`: the app id, app addresses, the current ledger
timestamp), the contract state, the calling transaction's sender, the method
arguments, and — where the source inspects it — the enclosing group.  A
failed assertion aborts the whole group; this is modelled by `Except Err`,
whose `error` result carries which assertion fired (named after the spec's
error taxonomy) and leaves no post-state (abort = no state change).
-/

namespace AA

abbrev Addr := Nat

abbrev AppId := Nat

/-- Zero address sentinel (`Address.zeroAddress` / `globals.zeroAddress`). -/
def zeroAddress : Addr := 0

/-- Method selectors are modelled as their signature strings. -/
abbrev Selector := String

/-- Selector checked by the Invariant Verifier of `V1`
(`method('arc58_verifyAuthAddr()void')`). -/
def verifyAuthAddrSelector : Selector := "arc58_verifyAuthAddr()void"

/-- Error taxonomy of the spec; each constructor tags one assertion site of
the source (all source failures are bare assertion failures aborting the
group). -/
inductive Err
  | unauthorized
  | invalidAdmin
  | aliasExists
  | notAuthorized
  | notFound
  | invariantViolation
deriving DecidableEq, Repr

/-- Key of the `V1` grant (`plugins`) box map:
`type PluginsKey = { application: Application; allowedCaller: Address }`. -/
structure PluginsKey where
  application : AppId
  allowedCaller : Addr
deriving DecidableEq, Repr

/-- The fields of a transaction in the enclosing atomic group that the
contracts inspect: sender, rekey target, and for application calls the
target application and argument list. -/
structure Txn where
  sender : Addr
  rekeyTo : Addr
  typeIsAppl : Bool
  applicationID : AppId
  applicationArgs : List Selector
deriving DecidableEq, Repr

/-- The inner payment transaction issued by `sendPayment` (the
control-transfer primitive): its sender, receiver and rekey target. -/
structure RekeyEffect where
  sender : Addr
  receiver : Addr
  rekeyTo : Addr
deriving DecidableEq, Repr

/-- Ambient execution environment: the owning application's id, the address
derived from each application id (`app.address`), and
`globals.latestTimestamp`. -/
structure Env where
  appId : AppId
  appAddrOf : AppId → Addr
  latestTimestamp : Nat

/-- Address of the owning application itself (`this.app.address`). -/
def Env.appAddress (env : Env) : Addr := env.appAddrOf env.appId

namespace V1

/-- Global state and box maps of the ARC-58 variant: `admin`,
`controlledAddress`, the `plugins` grant map and the `namedPlugins` alias
map. -/
structure State where
  admin : Addr
  controlledAddress : Addr
  plugins : PluginsKey → Option Nat
  namedPlugins : String → Option PluginsKey

/-- Source `getAuthAddr`: the expected custodian of the controlled address —
zero when the controlled address is the app's own account, else the app's
account. -/
def getAuthAddr (env : Env) (s : State) : Addr :=
  if s.controlledAddress = env.appAddress then zeroAddress else env.appAddress

/-- Source `verifyRekeyToAbstractedAccount`: look at the last transaction of
the group; if it is not a rekey of the controlled address back to the
expected custodian, it must be an application call to this app whose first
argument is the `arc58_verifyAuthAddr()void` selector.  `true` means the
group passes, `false` that the group aborts (`InvariantViolation`). -/
def verifyRekeyToAbstractedAccount (env : Env) (s : State) (g : List Txn) : Bool :=
  match g.getLast? with
  | none => false
  | some lastTxn =>
    if lastTxn.sender ≠ s.controlledAddress ∨ lastTxn.rekeyTo ≠ getAuthAddr env s then
      lastTxn.typeIsAppl && (lastTxn.applicationID == env.appId)
        && (lastTxn.applicationArgs.head? == some verifyAuthAddrSelector)
    else
      true

/-- Source `createApplication(controlledAddress, admin)`: the sender must be
one of the two supplied identities, the admin must differ from the
controlled address, and a zero controlled address resolves to the app's own
account. -/
def createApplication (env : Env) (txnSender : Addr) (controlledAddress admin : Addr) :
    Except Err State :=
  if txnSender = controlledAddress ∨ txnSender = admin then
    if admin ≠ controlledAddress then
      .ok { admin := admin
            controlledAddress :=
              if controlledAddress = zeroAddress then env.appAddress else controlledAddress
            plugins := fun _ => none
            namedPlugins := fun _ => none }
    else .error .invalidAdmin
  else .error .unauthorized

/-- Source `arc58_rekeyTo(addr, flash)`: admin-only; rekeys the controlled
address to `addr`; when `flash` is set, additionally runs the Invariant
Verifier on the enclosing group. -/
def arc58_rekeyTo (env : Env) (s : State) (txnSender : Addr) (addr : Addr) (flash : Bool)
    (g : List Txn) : Except Err RekeyEffect :=
  if txnSender = s.admin then
    if flash then
      if verifyRekeyToAbstractedAccount env s g then
        .ok { sender := s.controlledAddress, receiver := addr, rekeyTo := addr }
      else .error .invariantViolation
    else
      .ok { sender := s.controlledAddress, receiver := addr, rekeyTo := addr }
  else .error .unauthorized

/-- Source `arc58_rekeyToPlugin(plugin)`: if the wildcard grant
`(plugin, zeroAddress)` is absent or its expiry is `<` the current time, a
caller-scoped grant with expiry `>` the current time is required; then the
controlled address is rekeyed to the plugin's app address and the Invariant
Verifier runs on the group. -/
def arc58_rekeyToPlugin (env : Env) (s : State) (txnSender : Addr) (plugin : AppId)
    (g : List Txn) : Except Err RekeyEffect :=
  let globalKey : PluginsKey := ⟨plugin, zeroAddress⟩
  let fallThrough : Bool :=
    match s.plugins globalKey with
    | none => true
    | some v => decide (v < env.latestTimestamp)
  let scopedOk : Bool :=
    match s.plugins ⟨plugin, txnSender⟩ with
    | none => false
    | some v => decide (env.latestTimestamp < v)
  if fallThrough && !scopedOk then .error .notAuthorized
  else if verifyRekeyToAbstractedAccount env s g then
    .ok { sender := s.controlledAddress, receiver := s.controlledAddress,
          rekeyTo := env.appAddrOf plugin }
  else .error .invariantViolation

/-- Source `arc58_rekeyToNamedPlugin(name)`: reads the alias box (the read
of a missing box aborts the group) and re-enters `arc58_rekeyToPlugin` with
the resolved application. -/
def arc58_rekeyToNamedPlugin (env : Env) (s : State) (txnSender : Addr) (name : String)
    (g : List Txn) : Except Err RekeyEffect :=
  match s.namedPlugins name with
  | none => .error .notFound
  | some key => arc58_rekeyToPlugin env s txnSender key.application g

/-- Source `arc58_changeAdmin(newAdmin)`: admin-only; the new admin must
differ from the controlled address. -/
def arc58_changeAdmin (s : State) (txnSender : Addr) (newAdmin : Addr) : Except Err State :=
  if txnSender = s.admin then
    if newAdmin ≠ s.controlledAddress then
      .ok { s with admin := newAdmin }
    else .error .invalidAdmin
  else .error .unauthorized

/-- Source `arc58_addPlugin(app, allowedCaller, end)`: admin-only upsert of
a grant. -/
def arc58_addPlugin (s : State) (txnSender : Addr) (app : AppId) (allowedCaller : Addr)
    (endTime : Nat) : Except Err State :=
  if txnSender = s.admin then
    .ok { s with plugins := fun k =>
            if k = ⟨app, allowedCaller⟩ then some endTime else s.plugins k }
  else .error .unauthorized

/-- Source `arc58_removePlugin(app, allowedCaller)`: admin-only deletion of
a grant (deleting an absent box is a no-op). -/
def arc58_removePlugin (s : State) (txnSender : Addr) (app : AppId) (allowedCaller : Addr) :
    Except Err State :=
  if txnSender = s.admin then
    .ok { s with plugins := fun k =>
            if k = ⟨app, allowedCaller⟩ then none else s.plugins k }
  else .error .unauthorized

/-- Source `arc58_addNamedPlugin(name, app, allowedCaller, end)`: admin-only;
asserts the alias does not yet exist, then writes both the alias and the
grant. -/
def arc58_addNamedPlugin (s : State) (txnSender : Addr) (name : String) (app : AppId)
    (allowedCaller : Addr) (endTime : Nat) : Except Err State :=
  if txnSender = s.admin then
    if (s.namedPlugins name).isSome then .error .aliasExists
    else
      .ok { s with
            namedPlugins := fun n =>
              if n = name then some ⟨app, allowedCaller⟩ else s.namedPlugins n
            plugins := fun k =>
              if k = ⟨app, allowedCaller⟩ then some endTime else s.plugins k }
  else .error .unauthorized

/-- Source `arc58_removeNamedPlugin(name)`: admin-only; reads the alias box
(a missing box aborts the group), then deletes both the alias and the grant
under the recorded key. -/
def arc58_removeNamedPlugin (s : State) (txnSender : Addr) (name : String) :
    Except Err State :=
  if txnSender = s.admin then
    match s.namedPlugins name with
    | none => .error .notFound
    | some key =>
      .ok { s with
            namedPlugins := fun n => if n = name then none else s.namedPlugins n
            plugins := fun k => if k = key then none else s.plugins k }
  else .error .unauthorized

end V1

namespace V2

/-- Global state and box maps of the older variant.  The source class
declares the global keys `admin`, `address`, `authAddr` and the box maps
`plugins`, `factories`.  It declares NO `eoa` key, yet `addFactory` and
`removeFactory` read `this.eoa.value`; that never-declared, never-written
slot is modelled as the `Option` field `eoa`, which no operation ever sets. -/
structure State where
  admin : Addr
  address : Addr
  authAddr : Addr
  eoa : Option Addr
  plugins : AppId → Bool
  factories : AppId → Bool

/-- Source `createApplication(address, admin)` of the older variant: sender
must be one of the two supplied identities, admin must differ from the
address, a zero address resolves to the app account, and `authAddr` caches
the expected custodian.  The undeclared `eoa` slot starts (and stays)
unset. -/
def createApplication (env : Env) (txnSender : Addr) (address admin : Addr) :
    Except Err State :=
  if txnSender = address ∨ txnSender = admin then
    if admin ≠ address then
      let resolved := if address = zeroAddress then env.appAddress else address
      .ok { admin := admin
            address := resolved
            authAddr := if resolved = env.appAddress then zeroAddress else env.appAddress
            eoa := none
            plugins := fun _ => false
            factories := fun _ => false }
    else .error .invalidAdmin
  else .error .unauthorized

/-- Source `changeAdmin(newAdmin)` of the older variant: admin-only; the
source performs NO comparison of `newAdmin` against the managed address. -/
def changeAdmin (s : State) (txnSender : Addr) (newAdmin : Addr) : Except Err State :=
  if txnSender = s.admin then .ok { s with admin := newAdmin }
  else .error .unauthorized

/-- Source `addFactory(app)`: asserts `this.txn.sender === this.eoa.value`
against the undeclared `eoa` slot (stale name — every other governance
method checks `this.admin.value`). -/
def addFactory (s : State) (txnSender : Addr) (app : AppId) : Except Err State :=
  if some txnSender = s.eoa then
    .ok { s with factories := fun a => if a = app then true else s.factories a }
  else .error .unauthorized

/-- Source `removeFactory(app)`: same undeclared `eoa` check as
`addFactory`. -/
def removeFactory (s : State) (txnSender : Addr) (app : AppId) : Except Err State :=
  if some txnSender = s.eoa then
    .ok { s with factories := fun a => if a = app then false else s.factories a }
  else .error .unauthorized

end V2

/-- Whether an operation result committed (`ok`) rather than aborting the
enclosing atomic group (`error`). -/
def commits {α : Type} (r : Except Err α) : Bool :=
  match r with
  | .ok _ => true
  | .error _ => false

/-- Spec wording of the C2 validity condition, as a decidable predicate:
some grant for the delegate — wildcard-scoped or scoped to the caller — has
expiry strictly greater than the current time. -/
def specStrictGrantOk (s : V1.State) (caller : Addr) (plugin : AppId) (t : Nat) : Bool :=
  (match s.plugins ⟨plugin, zeroAddress⟩ with
   | some e => decide (t < e)
   | none => false) ||
  (match s.plugins ⟨plugin, caller⟩ with
   | some e => decide (t < e)
   | none => false)

/-- Sample environment: owning app 7, app addresses offset by 100 (so the
owning app's account is 107), current ledger time 150. -/
def envA : Env := { appId := 7, appAddrOf := fun a => 100 + a, latestTimestamp := 150 }

/-- Sample environment at ledger time 100. -/
def envB : Env := { appId := 7, appAddrOf := fun a => 100 + a, latestTimestamp := 100 }

/-- Sample ARC-58 state: admin 1, controlled address 2, a wildcard grant for
app 5 expiring at 100, a grant for app 5 scoped to caller 3 expiring at 200,
and the alias "swap" for the scoped grant key. -/
def sA : V1.State :=
  { admin := 1
    controlledAddress := 2
    plugins := fun k =>
      if k = ⟨5, 0⟩ then some 100 else if k = ⟨5, 3⟩ then some 200 else none
    namedPlugins := fun n => if n = "swap" then some ⟨5, 3⟩ else none }

/-- Sample ARC-58 state holding only a wildcard grant for app 5 expiring at
exactly 100. -/
def sB : V1.State :=
  { admin := 1
    controlledAddress := 2
    plugins := fun k => if k = ⟨5, 0⟩ then some 100 else none
    namedPlugins := fun _ => none }

/-- Sample group whose last transaction rekeys the controlled address 2 back
to the owning app's account 107: the self-healing shape. -/
def gA : List Txn :=
  [{ sender := 2, rekeyTo := 107, typeIsAppl := false, applicationID := 0,
     applicationArgs := [] }]

/-- Sample state of the older variant as created by
`createApplication envA 1 2 1`: admin 1, managed address 2, custodian 107,
the undeclared `eoa` slot unset, empty plugin and factory sets. -/
def sV2 : V2.State :=
  { admin := 1, address := 2, authAddr := 107, eoa := none,
    plugins := fun _ => false, factories := fun _ => false }

/-- Sample empty ARC-58 state: admin 1, controlled address 2, no grants, no
aliases. -/
def s6 : V1.State :=
  { admin := 1, controlledAddress := 2, plugins := fun _ => none,
    namedPlugins := fun _ => none }

/-- Result of `arc58_addNamedPlugin s6 1 "swap" 5 3 200`: the alias "swap"
maps to key (5, 3) and that key carries expiry 200. -/
def s6two : V1.State :=
  { admin := 1
    controlledAddress := 2
    plugins := fun k => if k = ⟨5, 3⟩ then some 200 else (fun _ => none) k
    namedPlugins := fun n => if n = "swap" then some ⟨5, 3⟩ else (fun _ => none) n }

@[simp] theorem commits_ok {α : Type} (a : α) :
    commits (Except.ok a : Except Err α) = true := rfl

@[simp] theorem commits_error {α : Type} (e : Err) :
    commits (Except.error e : Except Err α) = false := rfl

/-- C1: the Invariant Verifier passes iff the group's final operation either
rekeys the controlled address back to the expected custodian (zero address
when the controlled address is the app's own account, else the app's
account), or is an application call to the owning app whose first argument
is the `arc58_verifyAuthAddr()void` selector. -/
theorem c1_invariant_verifier_iff (env : Env) (s : V1.State) (g : List Txn) (t : Txn)
    (hlast : g.getLast? = some t) :
    V1.verifyRekeyToAbstractedAccount env s g = true ↔
      ((t.sender = s.controlledAddress ∧
        t.rekeyTo = (if s.controlledAddress = env.appAddress then zeroAddress
                     else env.appAddress)) ∨
       (t.typeIsAppl = true ∧ t.applicationID = env.appId ∧
        t.applicationArgs.head? = some verifyAuthAddrSelector)) := by
  have hv : V1.verifyRekeyToAbstractedAccount env s g =
      (if t.sender ≠ s.controlledAddress ∨ t.rekeyTo ≠ V1.getAuthAddr env s then
        t.typeIsAppl && (t.applicationID == env.appId)
          && (t.applicationArgs.head? == some verifyAuthAddrSelector)
      else true) := by
    unfold V1.verifyRekeyToAbstractedAccount
    rw [hlast]
  have hca : (if s.controlledAddress = env.appAddress then zeroAddress
              else env.appAddress) = V1.getAuthAddr env s := rfl
  rw [hv, hca]
  split
  next h =>
    simp only [Bool.and_eq_true, beq_iff_eq]
    constructor
    · rintro ⟨⟨h1, h2⟩, h3⟩
      exact Or.inr ⟨h1, h2, h3⟩
    · rintro (⟨h1, h2⟩ | ⟨h1, h2, h3⟩)
      · rcases h with hne | hne
        · exact absurd h1 hne
        · exact absurd h2 hne
      · exact ⟨⟨h1, h2⟩, h3⟩
  next h =>
    push_neg at h
    simp only [true_iff]
    exact Or.inl h

/-- Witness for C1 at a concrete input: a singleton group rekeying the
controlled address 2 back to the custodian 107 passes the verifier. -/
theorem c1_invariant_verifier_iff_witness :
    V1.verifyRekeyToAbstractedAccount envA sA gA = true := by
  have h := c1_invariant_verifier_iff envA sA gA
    { sender := 2, rekeyTo := 107, typeIsAppl := false, applicationID := 0,
      applicationArgs := [] } (by decide)
  exact h.mpr (Or.inl (by constructor <;> decide))

/-- C2 as amended: under a group that satisfies the Invariant Verifier,
`arc58_rekeyToPlugin` commits iff the wildcard grant exists with expiry
`≥` the current time (non-strict — this is where the claim's strict bound
fails) or the caller-scoped grant exists with expiry `>` the current time;
otherwise it aborts with `NotAuthorized`. -/
theorem c2_delegate_authorization (env : Env) (s : V1.State) (caller : Addr)
    (plugin : AppId) (g : List Txn)
    (hg : V1.verifyRekeyToAbstractedAccount env s g = true) :
    (commits (V1.arc58_rekeyToPlugin env s caller plugin g) = true ↔
      ((∃ e, s.plugins ⟨plugin, zeroAddress⟩ = some e ∧ env.latestTimestamp ≤ e) ∨
       (∃ e, s.plugins ⟨plugin, caller⟩ = some e ∧ env.latestTimestamp < e))) ∧
    (¬ ((∃ e, s.plugins ⟨plugin, zeroAddress⟩ = some e ∧ env.latestTimestamp ≤ e) ∨
        (∃ e, s.plugins ⟨plugin, caller⟩ = some e ∧ env.latestTimestamp < e)) →
      V1.arc58_rekeyToPlugin env s caller plugin g = .error .notAuthorized) := by
  unfold V1.arc58_rekeyToPlugin
  cases hG : s.plugins ⟨plugin, zeroAddress⟩ <;>
    cases hS : s.plugins ⟨plugin, caller⟩ <;>
      simp [hG, hS, hg] <;>
        (try split_ifs <;> simp_all) <;> omega

/-- Counterexample to C2 as stated: at current time 100, with only a
wildcard grant expiring exactly at 100 (no strictly-greater expiry exists
for any grant), delegation nonetheless commits. -/
theorem c2_counterexample :
    commits (V1.arc58_rekeyToPlugin envB sB 3 5 gA) = true ∧
    specStrictGrantOk sB 3 5 envB.latestTimestamp = false := by
  constructor <;> decide

/-- Witness for C2's amended theorem at a concrete input: caller 4 has no
scoped grant and the wildcard grant (expiry 100) is below time 150, so the
call aborts with `NotAuthorized`. -/
theorem c2_delegate_authorization_witness :
    V1.arc58_rekeyToPlugin envA sA 4 5 gA = .error .notAuthorized := by
  refine (c2_delegate_authorization envA sA 4 5 gA (by decide)).2 ?_
  rintro (⟨e, he, hle⟩ | ⟨e, he, hle⟩) <;>
    simp [sA, envA, zeroAddress] at he hle <;> omega

/-- C3: the wildcard grant is resolved first — a wildcard grant with expiry
strictly above the current time authorizes the call regardless of the
caller-scoped entry; when the wildcard grant is absent or expired (expiry
strictly below the current time), the call falls through and commits exactly
when the caller-scoped grant exists with expiry strictly above the current
time. -/
theorem c3_global_precedence (env : Env) (s : V1.State) (caller : Addr)
    (plugin : AppId) (g : List Txn)
    (hg : V1.verifyRekeyToAbstractedAccount env s g = true) :
    (∀ e, s.plugins ⟨plugin, zeroAddress⟩ = some e → env.latestTimestamp < e →
      commits (V1.arc58_rekeyToPlugin env s caller plugin g) = true) ∧
    ((s.plugins ⟨plugin, zeroAddress⟩ = none ∨
      (∃ e, s.plugins ⟨plugin, zeroAddress⟩ = some e ∧ e < env.latestTimestamp)) →
      (commits (V1.arc58_rekeyToPlugin env s caller plugin g) = true ↔
        ∃ e, s.plugins ⟨plugin, caller⟩ = some e ∧ env.latestTimestamp < e)) := by
  unfold V1.arc58_rekeyToPlugin
  cases hG : s.plugins ⟨plugin, zeroAddress⟩ <;>
    cases hS : s.plugins ⟨plugin, caller⟩ <;>
      simp [hG, hS, hg] <;>
        (try split_ifs <;> simp_all) <;> omega

/-- Witness for C3 at the spec's own scenario: wildcard expiry 100, scoped
expiry 200, current time 150 — the call commits via the scoped path. -/
theorem c3_global_precedence_witness :
    commits (V1.arc58_rekeyToPlugin envA sA 3 5 gA) = true := by
  have h := (c3_global_precedence envA sA 3 5 gA (by decide)).2
  exact (h (Or.inr ⟨100, by decide, by decide⟩)).mpr ⟨200, by decide, by decide⟩

/-- Counterexample to C4 as stated: in the older variant, `changeAdmin`
called by the admin with the managed address itself (2) as the new admin
commits and installs it — no `InvalidAdmin` check exists there. -/
theorem c4_counterexample :
    sV2.address = 2 ∧ V2.changeAdmin sV2 1 2 = .ok { sV2 with admin := 2 } :=
  ⟨rfl, rfl⟩

/-- C4 as amended: creation with identical admin and managed address fails
in both variants (with `InvalidAdmin` whenever the sender precondition is
met), and the ARC-58 variant rejects `changeAdmin` to the controlled
address; the older variant's `changeAdmin` performs no collision check and
commits the managed address as admin when called by the admin. -/
theorem c4_admin_collision_amended :
    (∀ (env : Env) (txnSender a : Addr),
      commits (V1.createApplication env txnSender a a) = false ∧
      (txnSender = a → V1.createApplication env txnSender a a = .error .invalidAdmin)) ∧
    (∀ (env : Env) (txnSender a : Addr),
      commits (V2.createApplication env txnSender a a) = false ∧
      (txnSender = a → V2.createApplication env txnSender a a = .error .invalidAdmin)) ∧
    (∀ (s : V1.State) (txnSender : Addr),
      V1.arc58_changeAdmin s txnSender s.controlledAddress = .error .invalidAdmin ∨
      V1.arc58_changeAdmin s txnSender s.controlledAddress = .error .unauthorized) ∧
    (∀ (s : V2.State) (txnSender : Addr), txnSender = s.admin →
      V2.changeAdmin s txnSender s.address = .ok { s with admin := s.address }) := by
  refine ⟨?_, ?_, ?_, ?_⟩
  · intro env txnSender a
    unfold V1.createApplication
    constructor
    · split_ifs <;> simp_all
    · intro h
      subst h
      simp
  · intro env txnSender a
    unfold V2.createApplication
    constructor
    · split_ifs <;> simp_all
    · intro h
      subst h
      simp
  · intro s txnSender
    unfold V1.arc58_changeAdmin
    split_ifs <;> simp_all
  · intro s txnSender h
    unfold V2.changeAdmin
    rw [if_pos h]

/-- Witness for C4's amended theorem at concrete inputs. -/
theorem c4_admin_collision_amended_witness :
    V1.createApplication envA 3 3 3 = .error .invalidAdmin ∧
    V2.changeAdmin sV2 1 sV2.address = .ok { sV2 with admin := sV2.address } :=
  ⟨(c4_admin_collision_amended.1 envA 3 3).2 rfl,
   c4_admin_collision_amended.2.2.2 sV2 1 rfl⟩

/-- C5 against the source: `addFactory` and `removeFactory` of the older
variant gate on the undeclared `eoa` slot rather than on `admin`, so on any
account produced by `createApplication` they abort for every caller — the
admin included.  This contradicts the spec's admin-governance rule for the
factory set (the code is the slip: every sibling governance method checks
`this.admin.value`). -/
theorem c5_factory_admin_check_missing (env : Env) (txnSender a adm : Addr) (app : AppId)
    (s : V2.State) (h : V2.createApplication env txnSender a adm = .ok s) :
    commits (V2.addFactory s s.admin app) = false ∧
    commits (V2.removeFactory s s.admin app) = false ∧
    (∀ caller, V2.addFactory s caller app = .error .unauthorized ∧
               V2.removeFactory s caller app = .error .unauthorized) := by
  have heoa : s.eoa = none := by
    unfold V2.createApplication at h
    split_ifs at h <;>
      first
        | (simp only [Except.ok.injEq] at h
           subst h
           rfl)
        | simp at h
  refine ⟨?_, ?_, fun caller => ⟨?_, ?_⟩⟩ <;>
    simp [V2.addFactory, V2.removeFactory, heoa]

/-- Witness for C5 at a concrete input: on the freshly created account
`sV2`, even the admin's `addFactory` does not commit, and a third party's
`removeFactory` aborts. -/
theorem c5_factory_admin_check_missing_witness :
    commits (V2.addFactory sV2 sV2.admin 5) = false ∧
    V2.removeFactory sV2 3 5 = .error .unauthorized := by
  have h := c5_factory_admin_check_missing envA 1 2 1 5 sV2 (by rfl)
  exact ⟨h.1, (h.2.2 3).2⟩

/-- C6: after a successful `addNamedGrant`, a second `addNamedGrant` with
the same name — whatever its delegate, caller-scope and expiry arguments —
aborts with `AliasExists` (so no state of either store changes). -/
theorem c6_alias_not_idempotent (s s2 : V1.State) (txnSender txnSender2 : Addr)
    (name : String) (app app2 : AppId) (allowedCaller allowedCaller2 : Addr)
    (endTime endTime2 : Nat)
    (h1 : V1.arc58_addNamedPlugin s txnSender name app allowedCaller endTime = .ok s2)
    (h2 : txnSender2 = s2.admin) :
    V1.arc58_addNamedPlugin s2 txnSender2 name app2 allowedCaller2 endTime2 =
      .error .aliasExists := by
  unfold V1.arc58_addNamedPlugin at h1 ⊢
  split_ifs at h1 <;>
    first
      | (simp only [Except.ok.injEq] at h1
         subst h1
         rw [if_pos h2]
         simp)
      | simp at h1

/-- Witness for C6 at concrete inputs: adding alias "swap" to the empty
state, then re-adding it with different arguments, aborts with
`AliasExists`. -/
theorem c6_alias_not_idempotent_witness :
    V1.arc58_addNamedPlugin s6two 1 "swap" 9 4 300 = .error .aliasExists :=
  c6_alias_not_idempotent s6 s6two 1 1 "swap" 5 9 3 4 200 300 rfl rfl

/-- C7: for a name present in the Alias Store, `removeNamedGrant` (called by
the admin) commits a state in which neither the alias nor the grant under
its recorded key resolves. -/
theorem c7_remove_named_grant (s : V1.State) (txnSender : Addr) (name : String)
    (key : PluginsKey) (hk : s.namedPlugins name = some key) (hs : txnSender = s.admin) :
    ∃ s2, V1.arc58_removeNamedPlugin s txnSender name = .ok s2 ∧
      s2.namedPlugins name = none ∧ s2.plugins key = none := by
  have hstep : V1.arc58_removeNamedPlugin s txnSender name =
      .ok { s with
            namedPlugins := fun n => if n = name then none else s.namedPlugins n
            plugins := fun k => if k = key then none else s.plugins k } := by
    unfold V1.arc58_removeNamedPlugin
    rw [if_pos hs, hk]
  exact ⟨_, hstep, by simp, by simp⟩

/-- Witness for C7 at a concrete input: removing alias "swap" from `sA`
leaves both the alias and the grant under key (5, 3) unresolvable. -/
theorem c7_remove_named_grant_witness :
    (V1.arc58_removeNamedPlugin sA 1 "swap").toOption.elim False
      (fun s2 => s2.namedPlugins "swap" = none ∧ s2.plugins ⟨5, 3⟩ = none) := by
  obtain ⟨s2, hok, hn, hp⟩ := c7_remove_named_grant sA 1 "swap" ⟨5, 3⟩ (by decide) rfl
  rw [hok]
  exact ⟨hn, hp⟩

/-- C8: `directRekey` commits exactly for the admin with, when `flash` is
set, a group passing the Invariant Verifier; it rekeys the controlled
address to the target; with `flash` unset no group condition is imposed;
non-admin callers get `Unauthorized` and a failing flash group gets
`InvariantViolation`. -/
theorem c8_direct_rekey (env : Env) (s : V1.State) (txnSender addr : Addr) (flash : Bool)
    (g : List Txn) :
    (V1.arc58_rekeyTo env s txnSender addr flash g =
        .ok { sender := s.controlledAddress, receiver := addr, rekeyTo := addr } ↔
      (txnSender = s.admin ∧
        (flash = true → V1.verifyRekeyToAbstractedAccount env s g = true))) ∧
    (txnSender ≠ s.admin →
      V1.arc58_rekeyTo env s txnSender addr flash g = .error .unauthorized) ∧
    (txnSender = s.admin → flash = true →
      V1.verifyRekeyToAbstractedAccount env s g = false →
      V1.arc58_rekeyTo env s txnSender addr flash g = .error .invariantViolation) := by
  unfold V1.arc58_rekeyTo
  by_cases hs : txnSender = s.admin <;> cases flash <;>
    by_cases hv : V1.verifyRekeyToAbstractedAccount env s g = true <;>
      simp_all

/-- Witness for C8 at a concrete input: the admin's flash rekey of `sA` to
address 9, within a group ending in a restoring rekey, commits. -/
theorem c8_direct_rekey_witness :
    commits (V1.arc58_rekeyTo envA sA 1 9 true gA) = true := by
  have h := (c8_direct_rekey envA sA 1 9 true gA).1.mpr ⟨rfl, fun _ => by decide⟩
  rw [h]
  rfl

/-- C9: in both variants, creation commits only when the transaction sender
is one of the two supplied identities, and aborts with `Unauthorized` for
any third-party sender. -/
theorem c9_create_sender_precondition (env : Env) (txnSender a adm : Addr) :
    (commits (V1.createApplication env txnSender a adm) = true →
      txnSender = a ∨ txnSender = adm) ∧
    (commits (V2.createApplication env txnSender a adm) = true →
      txnSender = a ∨ txnSender = adm) ∧
    (txnSender ≠ a → txnSender ≠ adm →
      V1.createApplication env txnSender a adm = .error .unauthorized ∧
      V2.createApplication env txnSender a adm = .error .unauthorized) := by
  refine ⟨?_, ?_, ?_⟩
  · intro hc
    by_contra hno
    push_neg at hno
    simp [V1.createApplication, hno.1, hno.2] at hc
  · intro hc
    by_contra hno
    push_neg at hno
    simp [V2.createApplication, hno.1, hno.2] at hc
  · intro hna hnadm
    constructor <;> simp [V1.createApplication, V2.createApplication, hna, hnadm]

/-- Witness for C9 at a concrete input: sender 9 is neither the supplied
address 1 nor the supplied admin 2, so creation aborts in both variants. -/
theorem c9_create_sender_precondition_witness :
    V1.createApplication envA 9 1 2 = .error .unauthorized ∧
    V2.createApplication envA 9 1 2 = .error .unauthorized :=
  (c9_create_sender_precondition envA 9 1 2).2.2 (by decide) (by decide)

/-- C10: delegation by a name absent from the Alias Store aborts the group
(the missing box read), producing no state change and no control
transfer. -/
theorem c10_missing_alias_aborts (env : Env) (s : V1.State) (txnSender : Addr)
    (name : String) (g : List Txn) (h : s.namedPlugins name = none) :
    V1.arc58_rekeyToNamedPlugin env s txnSender name g = .error .notFound := by
  unfold V1.arc58_rekeyToNamedPlugin
  rw [h]

/-- Witness for C10 at a concrete input: the alias "absent" is not in `sA`,
so the named delegation aborts. -/
theorem c10_missing_alias_aborts_witness :
    V1.arc58_rekeyToNamedPlugin envA sA 3 "absent" gA = .error .notFound :=
  c10_missing_alias_aborts envA sA 3 "absent" gA (by decide)

end AA
